import Mathlib

/-!
Shallow embedding of the Fresh-Weather bot (`bot.py`): the forecast formatter
(`_format_temp`, `_build_day_block_from_daily`, `build_full_forecast_message`),
the weather client (`get_weather`), the JSON-file store
(`_load_store`, `_save_store`, `save_last_forecast`, `get_last_forecast`),
and the `/weather` transition (`cmd_weather`).

Python values coming from `json.load` / `response.json()` are modelled by the
inductive type `Json`: JSON integers parse to Python `int` (constructor `.int`),
JSON decimals to Python `float` (constructor `.float`, kept as an exact
numerator/denominator pair so that all computation is integer arithmetic),
and objects to `dict` (association lists with unique keys, as produced by
`json.load`).  Python expressions that can raise are modelled in
`Except Unit`: every caught-or-propagated exception (`TypeError`,
`IndexError`, `AttributeError`, ...) is the single error value `()`, which is
faithful because the source never branches on the exception type
(all handlers catch bare `Exception`).
-/

/-- A Python `float` as the exact fraction `fnum / fden` (`fden ≠ 0` for every
value produced by parsing JSON).  The fraction is kept unnormalised; the
formatter only ever rounds or prints it, so normalisation is never observable. -/
structure PyFloat where
  fnum : Int
  fden : Nat
deriving DecidableEq, Repr

/-- A parsed JSON document, as the Python objects `json.load` produces:
`None`, `bool`, `int`, `float`, `str`, `list`, `dict`. -/
inductive Json where
  | null
  | bool (b : Bool)
  | int (n : Int)
  | float (f : PyFloat)
  | str (s : String)
  | arr (elems : List Json)
  | obj (fields : List (String × Json))

/-- The empty Python list `[]` (default of the six `daily.get(..., [])` calls). -/
def jEmptyArr : Json := Json.arr []

/-- The empty Python dict (default of `api_data.get("daily", {})`). -/
def jEmptyObj : Json := Json.obj []

/-! ### Decimal rendering of integers (Python `str`) -/

/-- Little-endian base-10 digits of `n` (empty for `0`), by fuel recursion so
that the kernel can evaluate it. -/
def natDigitsAux : Nat → Nat → List Nat
  | 0, _ => []
  | fuel + 1, n => if n = 0 then [] else n % 10 :: natDigitsAux fuel (n / 10)

/-- Little-endian base-10 digits of `n`. -/
def natDigits (n : Nat) : List Nat := natDigitsAux n n

/-- The ASCII character of a decimal digit. -/
def digitChar (d : Nat) : Char := Char.ofNat (48 + d)

/-- Python `str` of a natural number. -/
def pyStrNat (n : Nat) : String :=
  if n = 0 then "0" else String.mk (((natDigits n).map digitChar).reverse)

/-- Python `str` of an `int` (used for `str(chat_id)` and for f-string
interpolation of integers). -/
def pyStrInt (i : Int) : String :=
  if i < 0 then "-" ++ pyStrNat i.natAbs else pyStrNat i.natAbs

/-- Left-pad a string with `'0'` up to length `n`. -/
def padLeftZeros (s : String) (n : Nat) : String :=
  if s.length < n then String.mk (List.replicate (n - s.length) '0') ++ s else s

/-- Python `str` of a `float`.  CPython prints the shortest decimal string that
round-trips to the same binary double; for a fraction with a finite decimal
expansion (every numeric value the claims exercise) that is exactly the finite
expansion rendered here, always with at least one digit after the point
(`str(52.0) = "52.0"`).  Fractions with no finite decimal expansion (reachable
only from doubles whose shortest form is longer) fall back to a marker; no
claim depends on that branch. -/
def pyStrFloat (f : PyFloat) : String :=
  match (List.range 41).find? (fun k => (f.fnum * (10 : Int) ^ k) % (f.fden : Int) == 0) with
  | some k0 =>
    let k := max k0 1
    let scaled := (f.fnum * (10 : Int) ^ k) / (f.fden : Int)
    let s := padLeftZeros (pyStrNat scaled.natAbs) (k + 1)
    let ip := s.take (s.length - k)
    let fp := s.drop (s.length - k)
    (if f.fnum < 0 then "-" else "") ++ ip ++ "." ++ fp
  | none => pyStrInt f.fnum ++ "/" ++ pyStrNat f.fden

/-- Python `str()` as applied by f-string interpolation (`f"{precip[idx]} мм"`).
Lists and dicts print their full recursive `repr` in Python; the claims never
inspect that text (only that the block renders something), so containers are
rendered as fixed non-empty placeholders here. -/
def pyStr : Json → String
  | .null => "None"
  | .bool b => if b then "True" else "False"
  | .int n => pyStrInt n
  | .float f => pyStrFloat f
  | .str s => s
  | .arr _ => "[...]"
  | .obj _ => "\x7b...\x7d"

/-! ### Python `len` / indexing / `dict.get` -/

/-- Python `len(v)`: defined for `list`, `str` and `dict`; raises `TypeError`
otherwise (e.g. `len(5)`). -/
def pyLen : Json → Except Unit Int
  | .arr xs => .ok xs.length
  | .str s => .ok s.length
  | .obj kvs => .ok kvs.length
  | _ => .error ()

/-- Python list indexing `xs[i]`: negative indices count from the end;
out-of-range raises `IndexError`. -/
def pyIndexList (xs : List Json) (i : Int) : Except Unit Json :=
  let n : Int := xs.length
  let j : Int := if i < 0 then n + i else i
  if 0 ≤ j ∧ j < n then .ok (xs.getD j.toNat Json.null) else .error ()

/-- Python subscription `v[i]` with an `int` index: lists and strings index
(with negative wrap-around), a dict looks up the `int` key (never present in a
JSON-parsed dict, whose keys are strings, hence `KeyError`); other values raise
`TypeError`. -/
def pyIndex : Json → Int → Except Unit Json
  | .arr xs, i => pyIndexList xs i
  | .str s, i =>
    let cs := s.data
    let n : Int := cs.length
    let j : Int := if i < 0 then n + i else i
    if 0 ≤ j ∧ j < n then .ok (.str (String.mk [cs.getD j.toNat ' '])) else .error ()
  | _, _ => .error ()

/-- Python `d.get(k, dflt)`: on a dict returns the value or the default; on any
other value raises `AttributeError` (no `.get` attribute), as in
`daily.get("time", [])` when `daily` is not a dict. -/
def pyDictGetD (d : Json) (k : String) (dflt : Json) : Except Unit Json :=
  match d with
  | .obj kvs => .ok ((kvs.lookup k).getD dflt)
  | _ => .error ()

/-! ### The weather-code table and `_format_temp` -/

/-- The static `WEATHER_CODES` table of `bot.py` (integer code to label). -/
def WEATHER_CODES : List (Int × String) :=
  [(0, "Ясно"), (1, "Преимущественно ясно"), (2, "Переменная облачность"), (3, "Пасмурно"),
   (45, "Туман"), (48, "Изморозь"), (51, "Морось лёгкая"), (53, "Морось"), (55, "Морось интенсивная"),
   (61, "Дождь лёгкий"), (63, "Дождь"), (65, "Дождь сильный"), (71, "Снег лёгкий"), (73, "Снег"),
   (75, "Снег сильный"), (80, "Ливни лёгкие"), (81, "Ливни"), (82, "Ливни сильные"),
   (95, "Гроза"), (96, "Гроза с градом"), (99, "Гроза с сильным градом")]

/-- Python `WEATHER_CODES.get(v, "—")`.  `dict.get` hashes the key: an `int`
looks up directly; a `float` equal to an integer compares equal to that `int`
key (`{3: x}.get(3.0) = x`); `True == 1` and `False == 0`; strings and `None`
hash fine but match no `int` key; an (unhashable) `list` or `dict` key raises
`TypeError`. -/
def weatherCodesGet : Json → Except Unit String
  | .int n => .ok ((WEATHER_CODES.lookup n).getD "—")
  | .float f => .ok (if 0 < f.fden ∧ f.fnum % (f.fden : Int) = 0
      then (WEATHER_CODES.lookup (f.fnum / (f.fden : Int))).getD "—" else "—")
  | .bool b => .ok ((WEATHER_CODES.lookup (if b then 1 else 0)).getD "—")
  | .null => .ok "—"
  | .str _ => .ok "—"
  | .arr _ => .error ()
  | .obj _ => .error ()

/-- Round a fraction to the nearest integer, ties to even: the rounding CPython
applies in `format(x, '+.0f')`. -/
def roundHalfEvenF (f : PyFloat) : Int :=
  let fl := f.fnum.fdiv (f.fden : Int)
  let r2 := 2 * (f.fnum - fl * (f.fden : Int))
  if r2 < (f.fden : Int) then fl
  else if (f.fden : Int) < r2 then fl + 1
  else if fl % 2 = 0 then fl else fl + 1

/-- `_format_temp(val)`: `f"{val:+.0f}°C"`, with every exception (`ValueError`
for strings, `TypeError` for the rest) caught and turned into `"—"`.  `bool`
formats as its integer value; a negative float that rounds to zero prints
`-0` (`format(-0.4, '+.0f') = '-0'`). -/
def _format_temp : Json → String
  | .int n => (if n < 0 then "-" else "+") ++ pyStrNat n.natAbs ++ "°C"
  | .float f =>
    let n := roundHalfEvenF f
    (if n < 0 ∨ (n = 0 ∧ f.fnum < 0) then "-" else "+") ++ pyStrNat n.natAbs ++ "°C"
  | .bool b => (if b then "+1" else "+0") ++ "°C"
  | _ => "—"

/-! ### Date reformatting -/

/-- Leap year, as `datetime` computes it. -/
def isLeapYear (y : Nat) : Bool := (y % 4 == 0 && y % 100 != 0) || y % 400 == 0

/-- Days in a month of a given year. -/
def daysInMonth (y m : Nat) : Nat :=
  if m == 2 then (if isLeapYear y then 29 else 28)
  else if m == 4 || m == 6 || m == 9 || m == 11 then 30 else 31

/-- Split a character list at every `'-'` (the semantics of Python
`s.split("-")` / Lean `String.splitOn "-"`, including empty groups). -/
def splitDash : List Char → List (List Char)
  | [] => [[]]
  | c :: rest =>
    if c = '-' then [] :: splitDash rest
    else
      match splitDash rest with
      | [] => [[c]]
      | g :: gs => (c :: g) :: gs

/-- Decimal value of a digit list. -/
def digitsVal (cs : List Char) : Nat := cs.foldl (fun a c => a * 10 + (c.toNat - 48)) 0

/-- Value of a non-empty all-digit character list. -/
def charsToNat? (cs : List Char) : Option Nat :=
  if cs ≠ [] ∧ cs.all Char.isDigit then some (digitsVal cs) else none

/-- `datetime.strptime(s, "%Y-%m-%d")`, as CPython matches it: exactly four
digits of year (`1 ≤ year`), one or two digits of month and day, values in
calendar range.  Returns `none` where `strptime` raises `ValueError`. -/
def parseYmd (s : String) : Option (Nat × Nat × Nat) :=
  match splitDash s.data with
  | [ys, ms, ds] => do
    let y ← charsToNat? ys
    let m ← charsToNat? ms
    let d ← charsToNat? ds
    if ys.length = 4 ∧ ms.length ≤ 2 ∧ ds.length ≤ 2 ∧ 1 ≤ y ∧ 1 ≤ m ∧ m ≤ 12
        ∧ 1 ≤ d ∧ d ≤ daysInMonth y m
    then some (y, m, d) else none
  | _ => none

/-- `strftime("%d.%m.%Y")`: zero-padded day and month, four-digit year. -/
def fmtDmy (y m d : Nat) : String :=
  padLeftZeros (pyStrNat d) 2 ++ "." ++ padLeftZeros (pyStrNat m) 2 ++ "."
    ++ padLeftZeros (pyStrNat y) 4

/-- The `date_str` computation of `_build_day_block_from_daily`: reformat
`dates[idx]` from `YYYY-MM-DD` to `DD.MM.YYYY`; on any exception
(`ValueError` for an unparsable string, `TypeError` for a non-string) fall
back to the raw value, which the f-string then renders with `str()`. -/
def dateStrOf (v : Json) : String :=
  match v with
  | .str s =>
    match parseYmd s with
    | some (y, m, d) => fmtDmy y m d
    | none => s
  | other => pyStr other

/-! ### The day block -/

/-- The early-exit block for `idx >= len(dates)`: `f"*{label}*\nНет данных.\n"`. -/
def noDataBlock (label : String) : String := "*" ++ label ++ "*\nНет данных.\n"

/-- `WEATHER_CODES.get(wcode[idx], "—") if idx < len(wcode) else "—"`
(bot.py line 97). -/
def descValOf (wcode : Json) (idx : Int) : Except Unit String := do
  let n ← pyLen wcode
  if idx < n then do
    let v ← pyIndex wcode idx
    weatherCodesGet v
  else
    return "—"

/-- `_format_temp(t[idx]) if idx < len(t) else "—"` (bot.py lines 98-99). -/
def tempValOf (t : Json) (idx : Int) : Except Unit String := do
  let n ← pyLen t
  if idx < n then do
    let v ← pyIndex t idx
    return _format_temp v
  else
    return "—"

/-- `f"{x[idx]}<unit>" if idx < len(x) else "—"` (bot.py lines 100-101, with
`<unit>` the literal `" мм"` or `" м/с"` suffix). -/
def unitValOf (x : Json) (idx : Int) (unitSuffix : String) : Except Unit String := do
  let n ← pyLen x
  if idx < n then do
    let v ← pyIndex x idx
    return pyStr v ++ unitSuffix
  else
    return "—"

/-- `_build_day_block_from_daily(daily, idx, label)` (bot.py lines 76-109).
The six `daily.get(key, [])` reads, the `idx >= len(dates)` early exit, the
date reformatting, and the five per-field values with their length guards. -/
def _build_day_block_from_daily (daily : Json) (idx : Int) (label : String) :
    Except Unit String := do
  let dates ← pyDictGetD daily "time" jEmptyArr
  let tmax ← pyDictGetD daily "temperature_2m_max" jEmptyArr
  let tmin ← pyDictGetD daily "temperature_2m_min" jEmptyArr
  let precip ← pyDictGetD daily "precipitation_sum" jEmptyArr
  let wcode ← pyDictGetD daily "weathercode" jEmptyArr
  let wind ← pyDictGetD daily "windspeed_10m_max" jEmptyArr
  let nDates ← pyLen dates
  if nDates ≤ idx then
    return noDataBlock label
  else do
    let rawDate ← pyIndex dates idx
    let date_str := dateStrOf rawDate
    let desc ← descValOf wcode idx
    let tmax_val ← tempValOf tmax idx
    let tmin_val ← tempValOf tmin idx
    let precip_val ← unitValOf precip idx " мм"
    let wind_val ← unitValOf wind idx " м/с"
    return "*" ++ label ++ " — " ++ date_str ++ "*\n" ++ desc ++ "\n"
      ++ "Макс: " ++ tmax_val ++ ", мин: " ++ tmin_val ++ "\n"
      ++ "Осадки: " ++ precip_val ++ "\n" ++ "Ветер: " ++ wind_val ++ "\n"

/-- The body of `build_full_forecast_message` after `daily` has been read:
today's block, a blank line, tomorrow's block, and the attribution footer. -/
def render_full_from_daily (daily : Json) : Except Unit String := do
  let today ← _build_day_block_from_daily daily 0 "Сегодня"
  let tomorrow ← _build_day_block_from_daily daily 1 "Завтра"
  return today ++ "\n" ++ tomorrow ++ "\n\nДанные: Open-Meteo.com"

/-- `build_full_forecast_message(api_data)` (bot.py lines 111-116):
`daily = api_data.get("daily", {})`, then the two blocks plus footer. -/
def build_full_forecast_message (api_data : Json) : Except Unit String := do
  let daily ← pyDictGetD api_data "daily" jEmptyObj
  render_full_from_daily daily

/-! ### The weather client (`get_weather`, bot.py lines 57-68) -/

/-- The ways the requests-level exchange can go: a connection-level failure, a
timeout, or an HTTP response carrying a status code and a body (`none` when the
body is not valid JSON, so `r.json()` raises). -/
inductive HttpOutcome where
  | netError
  | timeout
  | response (status : Nat) (body : Option Json)

/-- The distinguishable failures of `get_weather`.  The code defines no
`FetchError` class: these are the `requests` exceptions
(`ConnectionError`, `Timeout`, `HTTPError` from `raise_for_status`, and the
JSON decode error from `r.json()`) that propagate out of `get_weather`. -/
inductive FetchErr where
  | network
  | timeout
  | badStatus
  | badJson
deriving DecidableEq

/-- `get_weather()` (bot.py lines 57-68): `requests.get(..., timeout=10)` can
raise for network failure or timeout; `r.raise_for_status()` raises `HTTPError`
exactly for status codes `>= 400`; `r.json()` raises when the body is not
JSON; otherwise the parsed body is returned as-is — the `"daily"` section is
never inspected here. -/
def get_weather (o : HttpOutcome) : Except FetchErr Json :=
  match o with
  | .netError => .error .network
  | .timeout => .error .timeout
  | .response status body =>
    if 400 ≤ status then .error .badStatus
    else
      match body with
      | none => .error .badJson
      | some j => .ok j

/-! ### The store (bot.py lines 119-152) -/

/-- The observable states of `last_forecasts.json`: absent, unreadable-or-not-
JSON (any `open`/`json.load` exception), or readable with parsed document
`doc` (any JSON value — `json.load` does not check that the document is an
object). -/
inductive FileState where
  | missing
  | corrupt
  | good (doc : Json)

/-- `_load_store()` (bot.py lines 119-127): `{}` when the file does not exist;
`json.load` of the file otherwise, with any exception caught, logged, and
turned into `{}`. -/
def _load_store : FileState → Json
  | .missing => jEmptyObj
  | .corrupt => jEmptyObj
  | .good doc => doc

/-- `_save_store(store)` (bot.py lines 129-134): writes the whole document;
any exception is caught and logged, leaving the previous file state (the
failure is modelled as happening before the content is replaced).  `writeOk`
is the environment's choice of whether the write succeeds. -/
def _save_store (doc : Json) (fs : FileState) (writeOk : Bool) : FileState :=
  if writeOk then .good doc else fs

/-- Python dict assignment `store[k] = v` on the association list of a parsed
dict: replaces the value at an existing key, otherwise appends (dicts preserve
insertion order). -/
def insertKV : List (String × Json) → String → Json → List (String × Json)
  | [], k, v => [(k, v)]
  | (k0, v0) :: rest, k, v =>
    if k0 == k then (k0, v) :: rest else (k0, v0) :: insertKV rest k v

/-- The entry dict written by `save_last_forecast`:
`{"ts": ..., "daily": daily, "text": text}` with `ts` the formatted
`datetime.utcnow()` instant (injected here as a parameter). -/
def entryJson (ts : String) (daily : Json) (text : String) : Json :=
  .obj [("ts", .str ts), ("daily", daily), ("text", .str text)]

/-- `save_last_forecast(chat_id, api_data)` (bot.py lines 136-147): under the
store lock, reload the store, take `daily = api_data.get("daily", {})`,
compute `text = build_full_forecast_message(api_data)`, assign the entry under
`str(chat_id)` and persist.  The assignment `store[str(chat_id)] = ...` raises
`TypeError` when the loaded document is not a dict; `api_data.get` raises when
`api_data` is not a dict; both propagate (there is no `try` here). -/
def save_last_forecast (chat_id : Int) (api_data : Json) (ts : String)
    (fs : FileState) (writeOk : Bool) : Except Unit FileState := do
  let daily ← pyDictGetD api_data "daily" jEmptyObj
  let text ← build_full_forecast_message api_data
  match _load_store fs with
  | .obj kvs =>
    return _save_store (.obj (insertKV kvs (pyStrInt chat_id) (entryJson ts daily text))) fs writeOk
  | _ => .error ()

/-- `get_last_forecast(chat_id)` (bot.py lines 149-152): reload the store and
`store.get(str(chat_id))`.  `.get` on a non-dict document raises
`AttributeError`, which propagates (no `try` here either). -/
def get_last_forecast (chat_id : Int) (fs : FileState) : Except Unit (Option Json) :=
  match _load_store fs with
  | .obj kvs => .ok (kvs.lookup (pyStrInt chat_id))
  | _ => .error ()

/-! ### The `/weather` transition (bot.py lines 163-175) -/

/-- The static failure message of the `/weather` handler. -/
def failFetchMsg : String := "Не удалось получить прогноз. Попробуйте позже."

/-- The `try` body of `cmd_weather` as control flow: fetch, save, rebuild the
text, answer with it and with the inline-keyboard prompt; any exception in the
body is caught and answered with the static failure message, leaving the file
untouched beyond what `save_last_forecast` already did (a fetch failure
happens before any store access).  `fetch` is the outcome of `get_weather()`;
the returned list is the sequence of texts sent to the conversation. -/
def cmd_weather (fetch : Except FetchErr Json) (chat_id : Int) (ts : String)
    (fs : FileState) (writeOk : Bool) : FileState × List String :=
  match fetch with
  | .error _ => (fs, [failFetchMsg])
  | .ok api_data =>
    match save_last_forecast chat_id api_data ts fs writeOk with
    | .error _ => (fs, [failFetchMsg])
    | .ok fs2 =>
      match build_full_forecast_message api_data with
      | .error _ => (fs2, [failFetchMsg])
      | .ok text => (fs2, [text, "Выберите:"])

/-! ### Callback-payload parsing (bot.py lines 207-216) -/

/-- Python `int(s)` restricted to an optional sign followed by digits.  CPython
additionally strips whitespace and allows underscores between digits; the
model accepts a subset, which is enough to show which payloads the `day:`
callback accepts. -/
def pyIntParse (s : String) : Option Int :=
  match s.data with
  | '-' :: rest => (charsToNat? rest).map (fun n => -(n : Int))
  | '+' :: rest => (charsToNat? rest).map (fun n => (n : Int))
  | cs => (charsToNat? cs).map (fun n => (n : Int))

/-- The index a `day:` callback event carries: `cb_day_callback` splits the
payload on the first `":"` and applies `int(...)` to the remainder; any parse
failure is answered with a static message instead of an index. -/
def parse_day_payload (data : String) : Option Int :=
  if data.take 4 == "day:" then pyIntParse (data.drop 4) else none

/-! ### Views of a daily dict used by the claims -/

/-- The list a field of the daily dict denotes: the stored array if the key is
present with a list value, `[]` if the key is absent (the `.get` default), and
`none` when the daily value is not a dict or the field not a list (shapes on
which `len`/indexing would behave differently). -/
def fieldList (d : Json) (k : String) : Option (List Json) :=
  match d with
  | .obj kvs =>
    match kvs.lookup k with
    | none => some []
    | some (.arr xs) => some xs
    | some _ => none
  | _ => none

/-- The six parallel arrays of a `DailyForecast`. -/
def dailyFieldNames : List String :=
  ["time", "temperature_2m_max", "temperature_2m_min", "precipitation_sum",
   "weathercode", "windspeed_10m_max"]

/-- A well-formed `DailyForecast` dict: a dict whose six fields, where present,
are arrays (of any length, with any element values). -/
def dailyWF (d : Json) : Bool := dailyFieldNames.all (fun k => (fieldList d k).isSome)

/-- Hashable Python values among JSON ones: everything except `list`/`dict`. -/
def jsonHashable : Json → Bool
  | .arr _ => false
  | .obj _ => false
  | _ => true

/-- The weathercode element at the accessed position is hashable: when `idx`
is in range of the weathercode array, the element there is not a `list`/`dict`
(elements at other positions are never touched by the lookup and may be
anything). -/
def wcodeHashableAt (d : Json) (idx : Int) : Bool :=
  match fieldList d "weathercode" with
  | some ws =>
    if 0 ≤ idx ∧ idx < (ws.length : Int) then jsonHashable (ws.getD idx.toNat Json.null)
    else true
  | none => true

/-- The index-alignment invariant of the spec's data model: all six fields are
present as arrays of the same length `n`. -/
def dailyAligned (d : Json) (n : Nat) : Bool :=
  dailyFieldNames.all (fun k =>
    match fieldList d k with
    | some xs => xs.length == n
    | none => false)

/-- Number of entries of the store under a given key. -/
def countKey : List (String × Json) → String → Nat
  | [], _ => 0
  | (k0, _) :: rest, k => (if k0 == k then 1 else 0) + countKey rest k

/-- The spec's concrete scenario day: date `2024-03-05`, max `5.2` (a JSON
decimal, hence a Python float `52/10`), min `-3`, precipitation `0`,
weathercode `3`, wind `12`. -/
def exDaily : Json := Json.obj [
  ("time", .arr [.str "2024-03-05"]),
  ("temperature_2m_max", .arr [.float ⟨52, 10⟩]),
  ("temperature_2m_min", .arr [.int (-3)]),
  ("precipitation_sum", .arr [.int 0]),
  ("weathercode", .arr [.int 3]),
  ("windspeed_10m_max", .arr [.int 12])]

/-- A daily dict that is well-formed in the `dailyWF` sense (all fields, where
present, are arrays) but whose weathercode element is itself a list — a
non-numeric element value in the sense of the claim. -/
def badWcodeDaily : Json :=
  Json.obj [("time", .arr [.str "x"]), ("weathercode", .arr [.arr []])]

/-- A daily dict with an unhashable weathercode element at position 0 that is
never accessed when rendering day 1 — the block for day 1 renders fine. -/
def mixedWcodeDaily : Json :=
  Json.obj [("time", .arr [.str "a", .str "b"]), ("weathercode", .arr [.arr [], .int 3])]

/-! ### Reduction lemmas -/

theorem okBind {ε α β : Type} (a : α) (f : α → Except ε β) :
    (Except.ok a >>= f : Except ε β) = f a := rfl

theorem errBind {ε α β : Type} (e : ε) (f : α → Except ε β) :
    (Except.error e >>= f : Except ε β) = Except.error e := rfl

theorem purePyOk {ε α : Type} (a : α) : (pure a : Except ε α) = Except.ok a := rfl

theorem pyLen_arr (xs : List Json) : pyLen (.arr xs) = .ok (xs.length : Int) := rfl

theorem pyIndex_arr (xs : List Json) (i : Int) : pyIndex (.arr xs) i = pyIndexList xs i := rfl

theorem fieldList_isObj {d : Json} {k : String} {xs : List Json}
    (h : fieldList d k = some xs) : ∃ kvs, d = .obj kvs := by
  cases d <;> simp [fieldList] at h <;> exact ⟨_, rfl⟩

theorem fieldList_get {d : Json} {k : String} {xs : List Json}
    (h : fieldList d k = some xs) : pyDictGetD d k jEmptyArr = .ok (.arr xs) := by
  cases d <;> simp [fieldList] at h
  rename_i kvs
  cases hlk : kvs.lookup k <;> rw [hlk] at h
  · cases h
    simp [pyDictGetD, hlk, jEmptyArr]
  · rename_i v
    cases v <;> simp at h
    subst h
    simp [pyDictGetD, hlk]

theorem pyIndexList_nonneg {xs : List Json} {i : Int} (h0 : 0 ≤ i)
    (hlt : i < (xs.length : Int)) :
    pyIndexList xs i = .ok (xs.getD i.toNat Json.null) := by
  simp only [pyIndexList]
  rw [if_neg (show ¬ i < 0 by omega), if_pos ⟨h0, hlt⟩]

theorem weatherCodesGet_ok {v : Json} (h : jsonHashable v = true) :
    ∃ s, weatherCodesGet v = .ok s := by
  cases v <;> simp [jsonHashable] at h <;> exact ⟨_, rfl⟩

theorem descValOf_arr_ok {ws : List Json} {idx : Int} (h0 : 0 ≤ idx)
    (hat : idx < (ws.length : Int) → jsonHashable (ws.getD idx.toNat Json.null) = true) :
    ∃ s, descValOf (.arr ws) idx = .ok s := by
  simp only [descValOf, pyLen_arr, okBind]
  by_cases hlt : idx < (ws.length : Int)
  · rw [if_pos hlt, pyIndex_arr, pyIndexList_nonneg h0 hlt, okBind]
    exact weatherCodesGet_ok (hat hlt)
  · rw [if_neg hlt]
    exact ⟨_, rfl⟩

theorem tempValOf_arr_ok {xs : List Json} {idx : Int} (h0 : 0 ≤ idx) :
    ∃ s, tempValOf (.arr xs) idx = .ok s := by
  simp only [tempValOf, pyLen_arr, okBind]
  by_cases hlt : idx < (xs.length : Int)
  · rw [if_pos hlt, pyIndex_arr, pyIndexList_nonneg h0 hlt, okBind]
    exact ⟨_, rfl⟩
  · rw [if_neg hlt]
    exact ⟨_, rfl⟩

theorem unitValOf_arr_ok {xs : List Json} {idx : Int} {u : String} (h0 : 0 ≤ idx) :
    ∃ s, unitValOf (.arr xs) idx u = .ok s := by
  simp only [unitValOf, pyLen_arr, okBind]
  by_cases hlt : idx < (xs.length : Int)
  · rw [if_pos hlt, pyIndex_arr, pyIndexList_nonneg h0 hlt, okBind]
    exact ⟨_, rfl⟩
  · rw [if_neg hlt]
    exact ⟨_, rfl⟩

theorem star_append_ne_empty (t : String) : ("*" ++ t) ≠ "" := by
  intro h
  have hd := congrArg String.data h
  rw [String.data_append] at hd
  simp at hd

theorem noData_ne_empty (label : String) : noDataBlock label ≠ "" := by
  simp only [noDataBlock, String.append_assoc]
  exact star_append_ne_empty _

/-- C1 (amended): for a well-formed daily dict and a non-negative index,
`_build_day_block_from_daily` returns a non-empty string — provided the
weathercode element *at the accessed position*, when that position is in
range, is not a `list`/`dict` (an unhashable value, on which the
`WEATHER_CODES.get` lookup raises `TypeError`; see the counterexample).
Unhashable elements at other positions are never touched and are fine. -/
theorem c1_render_total_amended (d : Json) (idx : Int) (label : String)
    (hwf : dailyWF d = true) (hw : wcodeHashableAt d idx = true) (hidx : 0 ≤ idx) :
    ∃ s, _build_day_block_from_daily d idx label = .ok s ∧ s ≠ "" := by
  simp only [dailyWF, dailyFieldNames, List.all_cons, List.all_nil, Bool.and_eq_true,
    and_true] at hwf
  obtain ⟨h1, h2, h3, h4, h5, h6⟩ := hwf
  rw [Option.isSome_iff_exists] at h1 h2 h3 h4 h5 h6
  obtain ⟨ts, hts⟩ := h1
  obtain ⟨xa, hxa⟩ := h2
  obtain ⟨xb, hxb⟩ := h3
  obtain ⟨xp, hxp⟩ := h4
  obtain ⟨xw, hxw⟩ := h5
  obtain ⟨xv, hxv⟩ := h6
  have hwAt : idx < (xw.length : Int) → jsonHashable (xw.getD idx.toNat Json.null) = true := by
    intro hinr
    simp only [wcodeHashableAt, hxw] at hw
    rw [if_pos ⟨hidx, hinr⟩] at hw
    exact hw
  simp only [_build_day_block_from_daily, fieldList_get hts, fieldList_get hxa,
    fieldList_get hxb, fieldList_get hxp, fieldList_get hxw, fieldList_get hxv,
    okBind, pyLen_arr]
  by_cases hle : (ts.length : Int) ≤ idx
  · rw [if_pos hle]
    exact ⟨noDataBlock label, rfl, noData_ne_empty label⟩
  · rw [if_neg hle]
    have hlt : idx < (ts.length : Int) := by omega
    rw [pyIndex_arr, pyIndexList_nonneg hidx hlt, okBind]
    obtain ⟨sdesc, hdesc⟩ := descValOf_arr_ok hidx hwAt
    obtain ⟨sa, ha⟩ := @tempValOf_arr_ok xa idx hidx
    obtain ⟨sb, hb⟩ := @tempValOf_arr_ok xb idx hidx
    obtain ⟨sp, hp⟩ := @unitValOf_arr_ok xp idx " мм" hidx
    obtain ⟨sv, hv⟩ := @unitValOf_arr_ok xv idx " м/с" hidx
    rw [hdesc, okBind, ha, okBind, hb, okBind, hp, okBind, hv, okBind]
    refine ⟨_, rfl, ?_⟩
    simp only [String.append_assoc]
    exact star_append_ne_empty _

/-- C1 (counterexample): a daily dict whose arrays are well-formed but whose
weathercode element is a list makes `_build_day_block_from_daily` raise
(`WEATHER_CODES.get` with an unhashable key raises `TypeError`, which nothing
in the function catches), refuting "never raises" for arbitrary non-numeric
element values. -/
theorem c1_render_counterexample :
    dailyWF badWcodeDaily = true ∧
    _build_day_block_from_daily badWcodeDaily 0 "Сегодня" = .error () := by
  exact ⟨by decide, rfl⟩

/-- C1 witness: the amended theorem applied at a daily dict whose weathercode
holds an unhashable element at position 0 while day 1 is rendered — exactly
the case the positional hypothesis admits and the all-elements one would not. -/
theorem c1_render_total_amended_witness :
    ∃ s, _build_day_block_from_daily mixedWcodeDaily 1 "Завтра" = .ok s ∧ s ≠ "" :=
  c1_render_total_amended mixedWcodeDaily 1 "Завтра" (by decide) (by decide) (by decide)

theorem pyDictGetD_obj (kvs : List (String × Json)) (k : String) (dflt : Json) :
    pyDictGetD (.obj kvs) k dflt = .ok ((kvs.lookup k).getD dflt) := rfl

/-- C5: when `idx` is at least the length of the date sequence,
`_build_day_block_from_daily` returns exactly the label line followed by the
fixed no-data line, whatever the other fields hold. -/
theorem c5_out_of_range_no_data (d : Json) (idx : Int) (label : String) (xs : List Json)
    (htime : fieldList d "time" = some xs) (hge : (xs.length : Int) ≤ idx) :
    _build_day_block_from_daily d idx label = .ok ("*" ++ label ++ "*\nНет данных.\n") := by
  obtain ⟨kvs, rfl⟩ := fieldList_isObj htime
  simp only [_build_day_block_from_daily]
  rw [fieldList_get htime]
  simp only [pyDictGetD_obj, okBind, pyLen_arr]
  rw [if_pos hge]
  rfl

/-- C5 witness: an empty daily dict (empty date sequence) at index 5. -/
theorem c5_out_of_range_no_data_witness :
    _build_day_block_from_daily (Json.obj []) 5 "Сегодня"
      = .ok ("*" ++ "Сегодня" ++ "*\nНет данных.\n") :=
  c5_out_of_range_no_data (Json.obj []) 5 "Сегодня" [] rfl (by decide)

/-- C6: the concrete scenario — date `2024-03-05`, max `5.2`, min `-3`,
precipitation `0`, weathercode `3`, wind `12` — renders a block containing
`05.03.2024`, `Пасмурно`, `+5°C`, `-3°C`, `0 мм` and `12 м/с`. -/
theorem c6_scenario_block :
    ∃ s, _build_day_block_from_daily exDaily 0 "Сегодня" = .ok s
      ∧ (∃ a b, s = a ++ "05.03.2024" ++ b)
      ∧ (∃ a b, s = a ++ "Пасмурно" ++ b)
      ∧ (∃ a b, s = a ++ "+5°C" ++ b)
      ∧ (∃ a b, s = a ++ "-3°C" ++ b)
      ∧ (∃ a b, s = a ++ "0 мм" ++ b)
      ∧ (∃ a b, s = a ++ "12 м/с" ++ b) := by
  refine ⟨"*Сегодня — 05.03.2024*\nПасмурно\nМакс: +5°C, мин: -3°C\nОсадки: 0 мм\nВетер: 12 м/с\n",
    rfl,
    ⟨"*Сегодня — ", "*\nПасмурно\nМакс: +5°C, мин: -3°C\nОсадки: 0 мм\nВетер: 12 м/с\n", rfl⟩,
    ⟨"*Сегодня — 05.03.2024*\n", "\nМакс: +5°C, мин: -3°C\nОсадки: 0 мм\nВетер: 12 м/с\n", rfl⟩,
    ⟨"*Сегодня — 05.03.2024*\nПасмурно\nМакс: ", ", мин: -3°C\nОсадки: 0 мм\nВетер: 12 м/с\n", rfl⟩,
    ⟨"*Сегодня — 05.03.2024*\nПасмурно\nМакс: +5°C, мин: ", "\nОсадки: 0 мм\nВетер: 12 м/с\n", rfl⟩,
    ⟨"*Сегодня — 05.03.2024*\nПасмурно\nМакс: +5°C, мин: -3°C\nОсадки: ", "\nВетер: 12 м/с\n", rfl⟩,
    ⟨"*Сегодня — 05.03.2024*\nПасмурно\nМакс: +5°C, мин: -3°C\nОсадки: 0 мм\nВетер: ", "\n", rfl⟩⟩

/-- C2 (counterexample): a 200-status response whose JSON body is `{}` — no
`"daily"` section at all — is returned successfully by `get_weather`; the
missing/malformed-`daily` case is *not* a fetch failure in the code (nothing
after `r.json()` inspects the payload), refuting the "exactly when" claim. -/
theorem c2_missing_daily_counterexample :
    get_weather (.response 200 (some (Json.obj []))) = .ok (Json.obj []) := rfl

/-- C2 (amended): `get_weather` fails exactly on network failure, timeout,
HTTP status `>= 400`, or a body that is not valid JSON; any sub-400 response
with a JSON body — `"daily"` present or not — is returned as-is. -/
theorem c2_fetch_failure_amended (o : HttpOutcome) :
    ((get_weather o).isOk = true ↔ (∃ st j, o = .response st (some j) ∧ st < 400)) ∧
    (∀ st j, o = .response st (some j) → st < 400 → get_weather o = .ok j) := by
  constructor
  · constructor
    · intro h
      match o with
      | .netError => simp [get_weather, Except.isOk, Except.toBool] at h
      | .timeout => simp [get_weather, Except.isOk, Except.toBool] at h
      | .response st body =>
        by_cases hst : 400 ≤ st
        · simp only [get_weather] at h
          rw [if_pos hst] at h
          simp [Except.isOk, Except.toBool] at h
        · match body with
          | none =>
            simp only [get_weather] at h
            rw [if_neg hst] at h
            simp [Except.isOk, Except.toBool] at h
          | some j => exact ⟨st, j, rfl, by omega⟩
    · rintro ⟨st, j, rfl, hst⟩
      simp only [get_weather]
      rw [if_neg (by omega)]
      rfl
  · rintro st j rfl hst
    simp only [get_weather]
    rw [if_neg (by omega)]

/-- C2 witness: the amended theorem's success direction at a concrete 200
response whose body lacks `"daily"`. -/
theorem c2_fetch_failure_amended_witness :
    get_weather (.response 200 (some jEmptyObj)) = .ok jEmptyObj :=
  (c2_fetch_failure_amended (.response 200 (some jEmptyObj))).2 200 jEmptyObj rfl (by decide)

/-- C4: in the modelled `/weather` transition (the body of `cmd_weather` as
written, whose enclosing module in fact fails to even import — see the
code-bug record), a fetch failure short-circuits to the static failure
message with the store file untouched.  The model confirms the *intent*; the
shipped file cannot execute it. -/
theorem c4_fetch_failure_leaves_store (e : FetchErr) (chat_id : Int) (ts : String)
    (fs : FileState) (writeOk : Bool) :
    cmd_weather (.error e) chat_id ts fs writeOk = (fs, [failFetchMsg]) := rfl

/-! ### Injectivity of the decimal rendering (`str(chat_id)` keys) -/

theorem natDigitsAux_sound : ∀ (fuel n : Nat), n ≤ fuel →
    Nat.ofDigits 10 (natDigitsAux fuel n) = n := by
  intro fuel
  induction fuel with
  | zero =>
    intro n h
    have : n = 0 := by omega
    subst this
    rfl
  | succ f ih =>
    intro n h
    by_cases h0 : n = 0
    · subst h0
      rfl
    · simp only [natDigitsAux, if_neg h0]
      rw [Nat.ofDigits_cons, ih (n / 10) (by omega)]
      omega

theorem natDigits_sound (n : Nat) : Nat.ofDigits 10 (natDigits n) = n :=
  natDigitsAux_sound n n le_rfl

theorem natDigitsAux_lt10 : ∀ (fuel n : Nat), ∀ d ∈ natDigitsAux fuel n, d < 10 := by
  intro fuel
  induction fuel with
  | zero =>
    intro n d hd
    simp [natDigitsAux] at hd
  | succ f ih =>
    intro n d hd
    by_cases h0 : n = 0
    · subst h0
      simp [natDigitsAux] at hd
    · simp only [natDigitsAux, if_neg h0] at hd
      rcases List.mem_cons.mp hd with h | h
      · omega
      · exact ih _ _ h

theorem digitChar_toNat_sub : ∀ d, d < 10 → (digitChar d).toNat - 48 = d := by decide

theorem digitChar_ne_dash : ∀ d, d < 10 → digitChar d ≠ '-' := by decide

theorem digitsVal_append_one (cs : List Char) (c : Char) :
    digitsVal (cs ++ [c]) = digitsVal cs * 10 + (c.toNat - 48) := by
  simp [digitsVal, List.foldl_append]

theorem digitsVal_rev_map : ∀ (l : List Nat), (∀ d ∈ l, d < 10) →
    digitsVal ((l.map digitChar).reverse) = Nat.ofDigits 10 l
  | [], _ => rfl
  | d :: t, h => by
    simp only [List.map_cons, List.reverse_cons, digitsVal_append_one]
    rw [digitsVal_rev_map t (fun x hx => h x (List.mem_cons_of_mem _ hx))]
    rw [Nat.ofDigits_cons, digitChar_toNat_sub d (h d (List.mem_cons_self d t))]
    ring

theorem pyStrNat_decode (n : Nat) : digitsVal (pyStrNat n).data = n := by
  by_cases h : n = 0
  · subst h
    rfl
  · simp only [pyStrNat, if_neg h]
    rw [digitsVal_rev_map (natDigits n) (fun d hd => natDigitsAux_lt10 n n d hd)]
    exact natDigits_sound n

theorem pyStrNat_inj {a b : Nat} (h : pyStrNat a = pyStrNat b) : a = b := by
  have h2 := congrArg (fun s => digitsVal s.data) h
  simpa [pyStrNat_decode] using h2

theorem pyStrNat_head_no_dash (n : Nat) : ∃ c cs, (pyStrNat n).data = c :: cs ∧ c ≠ '-' := by
  by_cases h : n = 0
  · subst h
    exact ⟨'0', [], rfl, by decide⟩
  · have hne : natDigits n ≠ [] := by
      intro hnil
      have := natDigits_sound n
      rw [hnil] at this
      exact h this.symm
    simp only [pyStrNat, if_neg h]
    cases hrev : ((natDigits n).map digitChar).reverse with
    | nil =>
      rw [List.reverse_eq_nil_iff, List.map_eq_nil_iff] at hrev
      exact absurd hrev hne
    | cons c cs =>
      refine ⟨c, cs, rfl, ?_⟩
      have hcmem : c ∈ ((natDigits n).map digitChar).reverse := by
        rw [hrev]
        exact List.mem_cons_self c cs
      rw [List.mem_reverse] at hcmem
      obtain ⟨d, hdmem, hdc⟩ := List.mem_map.mp hcmem
      rw [← hdc]
      exact digitChar_ne_dash d (natDigitsAux_lt10 n n d hdmem)

theorem pyStrInt_inj {i j : Int} (h : pyStrInt i = pyStrInt j) : i = j := by
  have hdata := congrArg String.data h
  by_cases hi : i < 0 <;> by_cases hj : j < 0
  · simp only [pyStrInt, if_pos hi, if_pos hj, String.data_append] at hdata
    simp only [List.singleton_append, List.cons.injEq, true_and] at hdata
    have h2 := congrArg digitsVal hdata
    rw [pyStrNat_decode, pyStrNat_decode] at h2
    omega
  · simp only [pyStrInt, if_pos hi, if_neg hj, String.data_append] at hdata
    obtain ⟨c, cs, hc, hcne⟩ := pyStrNat_head_no_dash j.natAbs
    rw [hc] at hdata
    simp only [List.singleton_append, List.cons.injEq] at hdata
    exact absurd hdata.1.symm hcne
  · simp only [pyStrInt, if_neg hi, if_pos hj, String.data_append] at hdata
    obtain ⟨c, cs, hc, hcne⟩ := pyStrNat_head_no_dash i.natAbs
    rw [hc] at hdata
    simp only [List.singleton_append, List.cons.injEq] at hdata
    exact absurd hdata.1 hcne
  · simp only [pyStrInt, if_neg hi, if_neg hj] at h
    have h2 := congrArg (fun s => digitsVal s.data) h
    simp only [pyStrNat_decode] at h2
    omega

/-! ### Store lemmas and the store claims -/

theorem pyLookup_cons (a k : String) (b : Json) (es : List (String × Json)) :
    List.lookup a ((k, b) :: es) = if a = k then some b else List.lookup a es := by
  by_cases h : a = k
  · subst h
    simp [List.lookup_cons]
  · rw [List.lookup_cons, show (a == k) = false by simpa using h, if_neg h]

theorem insertKV_cons (k0 : String) (v0 : Json) (rest : List (String × Json))
    (k : String) (v : Json) :
    insertKV ((k0, v0) :: rest) k v
      = if k0 = k then (k0, v) :: rest else (k0, v0) :: insertKV rest k v := by
  by_cases h : k0 = k
  · rw [if_pos h]
    simp only [insertKV]
    rw [show (k0 == k) = true by simpa using h]
    simp
  · rw [if_neg h]
    simp only [insertKV]
    rw [show (k0 == k) = false by simpa using h]
    simp

theorem lookup_insertKV_self : ∀ (kvs : List (String × Json)) (k : String) (v : Json),
    (insertKV kvs k v).lookup k = some v := by
  intro kvs k v
  induction kvs with
  | nil =>
    show List.lookup k [(k, v)] = some v
    rw [pyLookup_cons, if_pos rfl]
  | cons p rest ih =>
    obtain ⟨k0, v0⟩ := p
    rw [insertKV_cons]
    by_cases h : k0 = k
    · rw [if_pos h, pyLookup_cons, if_pos h.symm]
    · rw [if_neg h, pyLookup_cons, if_neg (fun he => h he.symm)]
      exact ih

theorem lookup_insertKV_ne : ∀ (kvs : List (String × Json)) (k : String) (v : Json)
    (k2 : String), k2 ≠ k → (insertKV kvs k v).lookup k2 = kvs.lookup k2 := by
  intro kvs k v k2 hne
  induction kvs with
  | nil =>
    show List.lookup k2 [(k, v)] = none
    rw [pyLookup_cons, if_neg hne]
    rfl
  | cons p rest ih =>
    obtain ⟨k0, v0⟩ := p
    rw [insertKV_cons]
    by_cases h : k0 = k
    · rw [if_pos h, pyLookup_cons, pyLookup_cons]
      have : ¬ k2 = k0 := fun he => hne (he.trans h)
      rw [if_neg this, if_neg this]
    · rw [if_neg h, pyLookup_cons, pyLookup_cons]
      by_cases h2 : k2 = k0
      · rw [if_pos h2, if_pos h2]
      · rw [if_neg h2, if_neg h2]
        exact ih

theorem countKey_cons (k0 : String) (v0 : Json) (rest : List (String × Json)) (k : String) :
    countKey ((k0, v0) :: rest) k = (if k0 = k then 1 else 0) + countKey rest k := by
  by_cases h : k0 = k
  · rw [if_pos h]
    simp only [countKey]
    rw [show (k0 == k) = true by simpa using h]
    simp
  · rw [if_neg h]
    simp only [countKey]
    rw [show (k0 == k) = false by simpa using h]
    simp

theorem countKey_insertKV (kvs : List (String × Json)) (k : String) (v : Json) :
    countKey (insertKV kvs k v) k
      = if countKey kvs k = 0 then 1 else countKey kvs k := by
  induction kvs with
  | nil =>
    show countKey [(k, v)] k = _
    rw [countKey_cons, if_pos rfl]
    rfl
  | cons p rest ih =>
    obtain ⟨k0, v0⟩ := p
    rw [insertKV_cons]
    by_cases h : k0 = k
    · rw [if_pos h]
      simp only [countKey_cons, if_pos h]
      rw [if_neg (by omega)]
    · rw [if_neg h]
      simp only [countKey_cons, if_neg h, ih]
      by_cases h0 : countKey rest k = 0
      · rw [if_pos h0, if_pos (by omega)]
      · rw [if_neg h0, if_neg (by omega)]

/-- C3: saving a payload and then loading the same conversation id returns the
entry whose `daily` is exactly the payload's `"daily"` section and whose
`text` is exactly the rendered full message of that section (round-trip),
whenever the store file loads as a dict and the write goes through. -/
theorem c3_save_load_roundtrip (chat_id : Int) (api_data : Json) (ts : String)
    (fs : FileState) (kvs : List (String × Json)) (daily : Json) (txt : String)
    (hload : _load_store fs = .obj kvs)
    (hdaily : pyDictGetD api_data "daily" jEmptyObj = .ok daily)
    (htext : render_full_from_daily daily = .ok txt) :
    ∃ fs', save_last_forecast chat_id api_data ts fs true = .ok fs' ∧
      get_last_forecast chat_id fs' = .ok (some (entryJson ts daily txt)) := by
  have hbuild : build_full_forecast_message api_data = .ok txt := by
    simp only [build_full_forecast_message, hdaily, okBind]
    exact htext
  refine ⟨.good (.obj (insertKV kvs (pyStrInt chat_id) (entryJson ts daily txt))), ?_, ?_⟩
  · simp only [save_last_forecast, hdaily, okBind, hbuild, hload]
    rfl
  · simp only [get_last_forecast, _load_store]
    rw [lookup_insertKV_self]

/-- C3 witness: a concrete round-trip through an absent store file, with the
payload `{}` (whose `daily` defaults to `{}` and renders the two no-data
blocks plus footer). -/
theorem c3_save_load_roundtrip_witness :
    ∃ fs', save_last_forecast 7 jEmptyObj "2024-03-05T12:00:00Z" FileState.missing true
        = .ok fs' ∧
      get_last_forecast 7 fs' = .ok (some (entryJson "2024-03-05T12:00:00Z" jEmptyObj
        "*Сегодня*\nНет данных.\n\n*Завтра*\nНет данных.\n\n\nДанные: Open-Meteo.com")) :=
  c3_save_load_roundtrip 7 jEmptyObj "2024-03-05T12:00:00Z" FileState.missing [] jEmptyObj
    "*Сегодня*\nНет данных.\n\n*Завтра*\nНет данных.\n\n\nДанные: Open-Meteo.com"
    rfl rfl rfl

/-- C8: saving twice under the same conversation id leaves exactly one entry
under that key — the second save overwrites the first (assignment into the
dict), given a store whose parsed dict has at most one entry for the key (as
any dict produced by `json.load` does). -/
theorem c8_save_twice_one_entry (chat_id : Int) (api_data : Json) (ts1 ts2 : String)
    (fs : FileState) (kvs : List (String × Json)) (daily : Json) (txt : String)
    (hload : _load_store fs = .obj kvs)
    (hcount : countKey kvs (pyStrInt chat_id) ≤ 1)
    (hdaily : pyDictGetD api_data "daily" jEmptyObj = .ok daily)
    (htext : render_full_from_daily daily = .ok txt) :
    ∃ fs1 kvs2, save_last_forecast chat_id api_data ts1 fs true = .ok fs1 ∧
      save_last_forecast chat_id api_data ts2 fs1 true = .ok (.good (.obj kvs2)) ∧
      countKey kvs2 (pyStrInt chat_id) = 1 := by
  have hbuild : build_full_forecast_message api_data = .ok txt := by
    simp only [build_full_forecast_message, hdaily, okBind]
    exact htext
  have hc1 : countKey (insertKV kvs (pyStrInt chat_id) (entryJson ts1 daily txt))
      (pyStrInt chat_id) = 1 := by
    rw [countKey_insertKV]
    by_cases h0 : countKey kvs (pyStrInt chat_id) = 0
    · rw [if_pos h0]
    · rw [if_neg h0]
      omega
  refine ⟨.good (.obj (insertKV kvs (pyStrInt chat_id) (entryJson ts1 daily txt))),
    insertKV (insertKV kvs (pyStrInt chat_id) (entryJson ts1 daily txt))
      (pyStrInt chat_id) (entryJson ts2 daily txt), ?_, ?_, ?_⟩
  · simp only [save_last_forecast, hdaily, okBind, hbuild, hload]
    rfl
  · simp only [save_last_forecast, hdaily, okBind, hbuild, _load_store]
    rfl
  · rw [countKey_insertKV, hc1]
    rfl

/-- C8 witness: the double save at a concrete conversation id over an absent
store file. -/
theorem c8_save_twice_one_entry_witness :
    ∃ fs1 kvs2, save_last_forecast 7 jEmptyObj "t1" FileState.missing true = .ok fs1 ∧
      save_last_forecast 7 jEmptyObj "t2" fs1 true = .ok (.good (.obj kvs2)) ∧
      countKey kvs2 (pyStrInt 7) = 1 :=
  c8_save_twice_one_entry 7 jEmptyObj "t1" "t2" FileState.missing [] jEmptyObj
    "*Сегодня*\nНет данных.\n\n*Завтра*\nНет данных.\n\n\nДанные: Open-Meteo.com"
    rfl (by decide) rfl rfl

/-- C9 (implicit frame property): saving under conversation id `A` does not
change what `load` returns for a different id `B`, nor the stored entry of any
key other than `str(A)`, whether or not the write goes through, given a store
file that loads as a dict. -/
theorem c9_save_frame (A B : Int) (api_data : Json) (ts : String) (fs : FileState)
    (writeOk : Bool) (kvs : List (String × Json)) (daily : Json) (txt : String)
    (hAB : A ≠ B)
    (hload : _load_store fs = .obj kvs)
    (hdaily : pyDictGetD api_data "daily" jEmptyObj = .ok daily)
    (htext : render_full_from_daily daily = .ok txt) :
    ∃ fs', save_last_forecast A api_data ts fs writeOk = .ok fs' ∧
      get_last_forecast B fs' = get_last_forecast B fs ∧
      ∀ k2 : String, k2 ≠ pyStrInt A →
        (insertKV kvs (pyStrInt A) (entryJson ts daily txt)).lookup k2
          = kvs.lookup k2 := by
  have hbuild : build_full_forecast_message api_data = .ok txt := by
    simp only [build_full_forecast_message, hdaily, okBind]
    exact htext
  have hkeys : pyStrInt B ≠ pyStrInt A := fun he => hAB (pyStrInt_inj he).symm
  have hframe : ∀ k2 : String, k2 ≠ pyStrInt A →
      (insertKV kvs (pyStrInt A) (entryJson ts daily txt)).lookup k2 = kvs.lookup k2 :=
    fun k2 hk2 => lookup_insertKV_ne kvs (pyStrInt A) (entryJson ts daily txt) k2 hk2
  cases writeOk with
  | false =>
    refine ⟨fs, ?_, rfl, hframe⟩
    simp only [save_last_forecast, hdaily, okBind, hbuild, hload]
    rfl
  | true =>
    refine ⟨.good (.obj (insertKV kvs (pyStrInt A) (entryJson ts daily txt))), ?_, ?_, hframe⟩
    · simp only [save_last_forecast, hdaily, okBind, hbuild, hload]
      rfl
    · have hL : get_last_forecast B
          (.good (.obj (insertKV kvs (pyStrInt A) (entryJson ts daily txt))))
          = .ok ((insertKV kvs (pyStrInt A) (entryJson ts daily txt)).lookup (pyStrInt B)) := rfl
      have hR : get_last_forecast B fs = .ok (kvs.lookup (pyStrInt B)) := by
        simp only [get_last_forecast, hload]
      rw [hL, hR, hframe (pyStrInt B) hkeys]

/-- C9 witness: the frame property at concrete distinct ids 1 and 2 over an
absent store file, with a successful write. -/
theorem c9_save_frame_witness :
    ∃ fs', save_last_forecast 1 jEmptyObj "t" FileState.missing true = .ok fs' ∧
      get_last_forecast 2 fs' = get_last_forecast 2 FileState.missing ∧
      ∀ k2 : String, k2 ≠ pyStrInt 1 →
        (insertKV [] (pyStrInt 1) (entryJson "t" jEmptyObj
          "*Сегодня*\nНет данных.\n\n*Завтра*\nНет данных.\n\n\nДанные: Open-Meteo.com")).lookup k2
          = List.lookup k2 [] :=
  c9_save_frame 1 2 jEmptyObj "t" FileState.missing true [] jEmptyObj
    "*Сегодня*\nНет данных.\n\n*Завтра*\nНет данных.\n\n\nДанные: Open-Meteo.com"
    (by decide) rfl rfl rfl

/-- C7 (counterexample): a readable store file containing valid JSON that is
not an object — `[]`, a corrupt store by any reasonable reading — makes
`get_last_forecast` raise (`list` has no `.get`, so `store.get(str(chat_id))`
raises `AttributeError`, and nothing between the store and the handler catches
it), refuting "load behaves as if the store were empty" for every
corrupt backing file. -/
theorem c7_nondict_store_counterexample :
    get_last_forecast 1 (FileState.good (Json.arr [])) = .error () := rfl

/-- C7 (amended): persistence failures that `_load_store` can see — a missing
file, or one whose read/JSON-parse raises — degrade to an empty store on load;
but a file that parses to a non-object JSON document makes `load` raise an
`AttributeError` that escapes the store boundary.  A failed *write* is fully
absorbed: `save` still returns normally (with the file left as it was). -/
theorem c7_persistence_amended :
    (∀ chat_id : Int, get_last_forecast chat_id FileState.missing = .ok none) ∧
    (∀ chat_id : Int, get_last_forecast chat_id FileState.corrupt = .ok none) ∧
    (∀ (chat_id : Int) (doc : Json), (∀ kvs, doc ≠ .obj kvs) →
      get_last_forecast chat_id (.good doc) = .error ()) ∧
    (∀ (chat_id : Int) (api_data : Json) (ts : String) (fs : FileState)
        (kvs : List (String × Json)) (daily : Json) (txt : String),
      _load_store fs = .obj kvs →
      pyDictGetD api_data "daily" jEmptyObj = .ok daily →
      render_full_from_daily daily = .ok txt →
      save_last_forecast chat_id api_data ts fs false = .ok fs) := by
  refine ⟨fun _ => rfl, fun _ => rfl, ?_, ?_⟩
  · intro chat_id doc hne
    match doc with
    | .null => rfl
    | .bool _ => rfl
    | .int _ => rfl
    | .float _ => rfl
    | .str _ => rfl
    | .arr _ => rfl
    | .obj kvs => exact absurd rfl (hne kvs)
  · intro chat_id api_data ts fs kvs daily txt hload hdaily htext
    have hbuild : build_full_forecast_message api_data = .ok txt := by
      simp only [build_full_forecast_message, hdaily, okBind]
      exact htext
    simp only [save_last_forecast, hdaily, okBind, hbuild, hload]
    rfl

/-- C7 witness: the amended theorem applied at concrete inputs — a load over a
missing file, a load over a garbage (non-object JSON) file, and a save whose
write fails over a missing file. -/
theorem c7_persistence_amended_witness :
    get_last_forecast 5 FileState.missing = .ok none ∧
    get_last_forecast 5 (FileState.good (Json.int 3)) = .error () ∧
    save_last_forecast 5 jEmptyObj "t" FileState.missing false = .ok FileState.missing :=
  ⟨c7_persistence_amended.1 5,
   c7_persistence_amended.2.2.1 5 (Json.int 3) (fun _ h => Json.noConfusion h),
   c7_persistence_amended.2.2.2 5 jEmptyObj "t" FileState.missing [] jEmptyObj
     "*Сегодня*\nНет данных.\n\n*Завтра*\nНет данных.\n\n\nДанные: Open-Meteo.com"
     rfl rfl rfl⟩

/-! ### Negative indices (C10) -/

theorem pyIndexList_neg_shift (xs : List Json) (i : Int) (n : Nat)
    (hlen : xs.length = n) (hlo : -(n : Int) ≤ i) (hhi : i < 0) :
    pyIndexList xs i = pyIndexList xs ((n : Int) + i) := by
  subst hlen
  simp only [pyIndexList]
  rw [if_pos hhi, if_neg (show ¬ (xs.length : Int) + i < 0 by omega)]

theorem descValOf_neg_shift (ws : List Json) (i : Int) (n : Nat)
    (hlen : ws.length = n) (hlo : -(n : Int) ≤ i) (hhi : i < 0) :
    descValOf (.arr ws) i = descValOf (.arr ws) ((n : Int) + i) := by
  simp only [descValOf, pyLen_arr, okBind]
  rw [if_pos (show i < (ws.length : Int) by omega),
      if_pos (show (n : Int) + i < (ws.length : Int) by omega),
      pyIndex_arr, pyIndex_arr, pyIndexList_neg_shift ws i n hlen hlo hhi]

theorem tempValOf_neg_shift (xs : List Json) (i : Int) (n : Nat)
    (hlen : xs.length = n) (hlo : -(n : Int) ≤ i) (hhi : i < 0) :
    tempValOf (.arr xs) i = tempValOf (.arr xs) ((n : Int) + i) := by
  simp only [tempValOf, pyLen_arr, okBind]
  rw [if_pos (show i < (xs.length : Int) by omega),
      if_pos (show (n : Int) + i < (xs.length : Int) by omega),
      pyIndex_arr, pyIndex_arr, pyIndexList_neg_shift xs i n hlen hlo hhi]

theorem unitValOf_neg_shift (xs : List Json) (i : Int) (n : Nat) (u : String)
    (hlen : xs.length = n) (hlo : -(n : Int) ≤ i) (hhi : i < 0) :
    unitValOf (.arr xs) i u = unitValOf (.arr xs) ((n : Int) + i) u := by
  simp only [unitValOf, pyLen_arr, okBind]
  rw [if_pos (show i < (xs.length : Int) by omega),
      if_pos (show (n : Int) + i < (xs.length : Int) by omega),
      pyIndex_arr, pyIndex_arr, pyIndexList_neg_shift xs i n hlen hlo hhi]

theorem alignedField {d : Json} {k : String} {n : Nat}
    (h : (match fieldList d k with
          | some xs => xs.length == n
          | none => false) = true) :
    ∃ xs, fieldList d k = some xs ∧ xs.length = n := by
  cases hf : fieldList d k <;> rw [hf] at h
  · simp at h
  · rename_i xs
    exact ⟨xs, rfl, by simpa using h⟩

theorem cons_append_ne (c1 c2 : Char) (t1 r1 t2 : List Char) (hc : c1 ≠ c2) :
    (c1 :: t1) ++ r1 ≠ c2 :: t2 := by
  intro h
  simp only [List.cons_append, List.cons.injEq] at h
  exact hc h.1

theorem rendered_ne_noData (label d1 s2 s3 s4 s5 s6 : String) :
    ("*" ++ label ++ " — " ++ d1 ++ "*\n" ++ s2 ++ "\n" ++ "Макс: " ++ s3 ++ ", мин: "
      ++ s4 ++ "\n" ++ "Осадки: " ++ s5 ++ "\n" ++ "Ветер: " ++ s6 ++ "\n")
      ≠ noDataBlock label := by
  intro h
  have hd := congrArg String.data h
  simp only [noDataBlock, String.data_append, List.append_assoc] at hd
  have h2 := List.append_cancel_left (List.append_cancel_left hd)
  exact cons_append_ne ' ' '*' _ _ _ (by decide) h2

/-- C10: on an index-aligned daily dict (the data model's invariant: all six
fields present as arrays of one length `n`), a negative index `idx` with
`-n <= idx < 0` does not produce the no-data block: Python's negative indexing
makes every field access wrap, so the block rendered is precisely the block of
day `n + idx`; and such indices reach `_build_day_block_from_daily` from the
public interface because the `day:` callback parses any `int(...)` payload,
e.g. `day:-1`. -/
theorem c10_negative_index (d : Json) (n : Nat) (idx : Int) (label : String)
    (halign : dailyAligned d n = true) (hn : 0 < n)
    (hlo : -(n : Int) ≤ idx) (hhi : idx < 0) :
    _build_day_block_from_daily d idx label
      = _build_day_block_from_daily d ((n : Int) + idx) label
    ∧ _build_day_block_from_daily d idx label ≠ .ok (noDataBlock label)
    ∧ parse_day_payload "day:-1" = some (-1) := by
  simp only [dailyAligned, dailyFieldNames, List.all_cons, List.all_nil, Bool.and_eq_true,
    and_true] at halign
  obtain ⟨h1, h2, h3, h4, h5, h6⟩ := halign
  obtain ⟨ts, hts, hlts⟩ := alignedField h1
  obtain ⟨xa, hxa, hlxa⟩ := alignedField h2
  obtain ⟨xb, hxb, hlxb⟩ := alignedField h3
  obtain ⟨xp, hxp, hlxp⟩ := alignedField h4
  obtain ⟨xw, hxw, hlxw⟩ := alignedField h5
  obtain ⟨xv, hxv, hlxv⟩ := alignedField h6
  have hmain : _build_day_block_from_daily d idx label
      = _build_day_block_from_daily d ((n : Int) + idx) label := by
    simp only [_build_day_block_from_daily, fieldList_get hts, fieldList_get hxa,
      fieldList_get hxb, fieldList_get hxp, fieldList_get hxw, fieldList_get hxv,
      okBind, pyLen_arr, pyIndex_arr]
    rw [if_neg (show ¬ (ts.length : Int) ≤ idx by omega),
        if_neg (show ¬ (ts.length : Int) ≤ (n : Int) + idx by omega)]
    simp only [pyIndexList_neg_shift ts idx n hlts hlo hhi,
      descValOf_neg_shift xw idx n hlxw hlo hhi,
      tempValOf_neg_shift xa idx n hlxa hlo hhi,
      tempValOf_neg_shift xb idx n hlxb hlo hhi,
      unitValOf_neg_shift xp idx n " мм" hlxp hlo hhi,
      unitValOf_neg_shift xv idx n " м/с" hlxv hlo hhi]
  refine ⟨hmain, ?_, rfl⟩
  rw [hmain]
  simp only [_build_day_block_from_daily, fieldList_get hts, fieldList_get hxa,
    fieldList_get hxb, fieldList_get hxp, fieldList_get hxw, fieldList_get hxv,
    okBind, pyLen_arr, pyIndex_arr]
  rw [if_neg (show ¬ (ts.length : Int) ≤ (n : Int) + idx by omega),
      pyIndexList_nonneg (show (0 : Int) ≤ (n : Int) + idx by omega)
        (show (n : Int) + idx < (ts.length : Int) by omega)]
  simp only [okBind]
  obtain ⟨sa, ha⟩ := @tempValOf_arr_ok xa ((n : Int) + idx) (by omega)
  obtain ⟨sb, hb⟩ := @tempValOf_arr_ok xb ((n : Int) + idx) (by omega)
  obtain ⟨sp, hp⟩ := @unitValOf_arr_ok xp ((n : Int) + idx) " мм" (by omega)
  obtain ⟨sv, hv⟩ := @unitValOf_arr_ok xv ((n : Int) + idx) " м/с" (by omega)
  cases hdesc : descValOf (.arr xw) ((n : Int) + idx) with
  | error e =>
    simp only [hdesc, errBind]
    exact fun hcon => Except.noConfusion hcon
  | ok sdesc =>
    simp only [hdesc, ha, hb, hp, hv, okBind, purePyOk]
    intro hcon
    injection hcon with hstr
    exact rendered_ne_noData label _ sdesc sa sb sp sv hstr

/-- C10 witness: the concrete scenario day (one-day arrays) at index `-1`,
which renders day `0`, not the no-data block. -/
theorem c10_negative_index_witness :
    _build_day_block_from_daily exDaily (-1) "Сегодня"
      = _build_day_block_from_daily exDaily ((1 : Nat) + (-1) : Int) "Сегодня"
    ∧ _build_day_block_from_daily exDaily (-1) "Сегодня" ≠ .ok (noDataBlock "Сегодня")
    ∧ parse_day_payload "day:-1" = some (-1) :=
  c10_negative_index exDaily 1 (-1) "Сегодня" (by decide) (by decide) (by decide) (by decide)

/-- C10 (counterexample to the unrestricted claim): with a non-empty date
sequence but a parallel field array shorter than `len + idx + 1` elements
(here: every other field absent, so defaulted to `[]`), the guard
`idx < len(field)` is *true* for a negative `idx` while the wrap-around access
`field[idx]` is out of range — `IndexError` — so the function raises rather
than rendering the day at position `len + idx` (which renders fine with
placeholders). -/
theorem c10_short_field_counterexample :
    _build_day_block_from_daily (Json.obj [("time", .arr [.str "x"])]) (-1) "Сегодня"
      = .error ()
    ∧ _build_day_block_from_daily (Json.obj [("time", .arr [.str "x"])]) 0 "Сегодня"
      = .ok "*Сегодня — x*\n—\nМакс: —, мин: —\nОсадки: —\nВетер: —\n" :=
  ⟨rfl, rfl⟩
